import Mathlib

/-!
Verification of the TaoKt binding layer (rust sources under src/taokt/src/main/rust).

The development shallowly embeds the event-loop / window-identity / target-scoping
subsystem of the crate: the window identity registry of App (app.rs), the scoped
target access discipline (TargetGuard and with_target), the control-flow directive
application (types.rs), the event translation function convert_event (events.rs),
the cooperative run-return driver (app.rs), the raw window handle extraction
(graphics.rs) and the mouse button conversions (types.rs).

Machine integers are modelled as Nat with an explicit modulus where wrap-around
matters (the AtomicU64 window id counter). Floating point payloads are never
computed with by the code, only carried through conversions, so they are modelled
as opaque bit patterns.
-/

set_option autoImplicit false

namespace TaoKt

/-- A carried f64 payload: the binding layer never does arithmetic on float
fields, it only copies them, so a float is modelled by its bit pattern. -/
structure F64 where
  bits : Nat
deriving DecidableEq, Repr

/-- A carried f32 payload, modelled by its bit pattern like F64. -/
structure F32 where
  bits : Nat
deriving DecidableEq, Repr

/-! ## Window identity registry (app.rs lines 72 to 87)

The App object owns next_window_id, an AtomicU64 counter, and window_ids, a
HashMap from native window ids to stable ids, guarded by a Mutex. Native window
ids (tao::window::WindowId, an opaque native identifier) are modelled as Nat and
the HashMap as an association list; the registry is single-loop sequential state,
so the lock and the atomic collapse to plain state passing. -/

/-- The u64 wrap-around modulus of the AtomicU64 counter. -/
def U64MOD : Nat := 2 ^ 64

/-- First-match lookup in an association list, the model of HashMap::get. -/
def lookupId : List (Nat × Nat) → Nat → Option Nat
  | [], _ => none
  | (k, v) :: rest, nid => if k = nid then some v else lookupId rest nid

/-- The registry state of App (app.rs lines 72 to 76): the proxy field is an
abstract handle to the native event loop proxy object, next_window_id the
AtomicU64 counter value and window_ids the contents of the HashMap. -/
structure App where
  proxy : Nat
  next_window_id : Nat
  window_ids : List (Nat × Nat)
deriving DecidableEq, Repr

/-- App.map_window_id (app.rs lines 79 to 87): look the native id up under the
lock; if present return the stored stable id unchanged; otherwise fetch_add
returns the current counter value as the freshly allocated stable id, the counter
is incremented with u64 wrap-around, and the new pair is inserted. -/
def App.map_window_id (app : App) (nid : Nat) : Nat × App :=
  match lookupId app.window_ids nid with
  | some existing => (existing, app)
  | none =>
      (app.next_window_id,
       { app with
           next_window_id := (app.next_window_id + 1) % U64MOD,
           window_ids := app.window_ids ++ [(nid, app.next_window_id)] })

/-- The App state built by run_with_config (app.rs lines 177 to 181) and by
run_return_loop_with_config (app.rs lines 236 to 240): counter starts at 1 with
an empty id map. The proxy handle value is irrelevant to the registry. -/
def App.init : App :=
  { proxy := 0, next_window_id := 1, window_ids := [] }

/-- Resolve a whole sequence of native window ids through the registry in order,
returning the stable ids in order together with the final registry state. -/
def resolveSeq (app : App) : List Nat → List Nat × App
  | [] => ([], app)
  | nid :: rest =>
      let step := app.map_window_id nid
      let tail := resolveSeq step.2 rest
      (step.1 :: tail.1, tail.2)

/-! ### Specification-level description of the registry contents

firstSeen lists the distinct native ids of a sequence in order of first
observation; posOf is the index of the first occurrence of an element. The
registry after processing a prefix p holds exactly the pairs (x, posOf
(firstSeen p) x + 1) for x in firstSeen p. -/

/-- Accumulate the ids of l not yet in acc, in order of first observation. -/
def seenAcc (acc : List Nat) : List Nat → List Nat
  | [] => acc
  | x :: rest => seenAcc (if x ∈ acc then acc else acc ++ [x]) rest

/-- The distinct native ids of a sequence, in order of first observation. -/
def firstSeen (l : List Nat) : List Nat := seenAcc [] l

/-- Index of the first occurrence of a in l (l.length if absent). -/
def posOf : List Nat → Nat → Nat
  | [], _ => 0
  | x :: rest, a => if x = a then 0 else posOf rest a + 1

/-- Pair each element of a list with consecutive numbers starting at k. -/
def enumFrom (k : Nat) : List Nat → List (Nat × Nat)
  | [] => []
  | x :: rest => (x, k) :: enumFrom (k + 1) rest

/-- The registry state determined by the prefix of native ids processed so far. -/
def regOf (p : List Nat) : App :=
  { proxy := 0,
    next_window_id := ((firstSeen p).length + 1) % U64MOD,
    window_ids := enumFrom 1 (firstSeen p) }

theorem seenAcc_append (acc p q : List Nat) :
    seenAcc acc (p ++ q) = seenAcc (seenAcc acc p) q := by
  induction p generalizing acc with
  | nil => rfl
  | cons x rest ih => simp [seenAcc, ih]

theorem seenAcc_extends (acc l : List Nat) :
    ∃ t, seenAcc acc l = acc ++ t := by
  induction l generalizing acc with
  | nil => exact ⟨[], by simp [seenAcc]⟩
  | cons x rest ih =>
      by_cases hx : x ∈ acc
      · simpa [seenAcc, hx] using ih acc
      · obtain ⟨t, ht⟩ := ih (acc ++ [x])
        exact ⟨x :: t, by simpa [seenAcc, hx] using ht⟩

theorem mem_seenAcc_self (acc l : List Nat) (x : Nat) (hx : x ∈ acc) :
    x ∈ seenAcc acc l := by
  obtain ⟨t, ht⟩ := seenAcc_extends acc l
  rw [ht]; exact List.mem_append_left _ hx

theorem length_seenAcc_le (acc l : List Nat) :
    (seenAcc acc l).length ≤ acc.length + l.length := by
  induction l generalizing acc with
  | nil => simp [seenAcc]
  | cons x rest ih =>
      by_cases hx : x ∈ acc
      · simpa [seenAcc, hx] using Nat.le_succ_of_le (ih acc)
      · have := ih (acc ++ [x])
        simpa [seenAcc, hx, Nat.add_assoc, Nat.add_comm 1 rest.length] using this

theorem length_seenAcc_ge (acc l : List Nat) :
    acc.length ≤ (seenAcc acc l).length := by
  obtain ⟨t, ht⟩ := seenAcc_extends acc l
  simp [ht]

theorem length_firstSeen_le (l : List Nat) : (firstSeen l).length ≤ l.length := by
  simpa [firstSeen] using length_seenAcc_le [] l

theorem firstSeen_append_single (p : List Nat) (x : Nat) :
    firstSeen (p ++ [x]) =
      if x ∈ firstSeen p then firstSeen p else firstSeen p ++ [x] := by
  simp [firstSeen, seenAcc_append, seenAcc]

theorem length_firstSeen_mono (p q : List Nat) :
    (firstSeen p).length ≤ (firstSeen (p ++ q)).length := by
  simpa [firstSeen, seenAcc_append] using length_seenAcc_ge (firstSeen p) q

theorem posOf_append_left (l t : List Nat) (x : Nat) (hx : x ∈ l) :
    posOf (l ++ t) x = posOf l x := by
  induction l with
  | nil => cases hx
  | cons y rest ih =>
      by_cases hy : y = x
      · simp [posOf, hy]
      · have hx2 : x ∈ rest := by
          cases List.mem_cons.mp hx with
          | inl h => exact absurd h.symm hy
          | inr h => exact h
        simp [posOf, hy, ih hx2]

theorem posOf_append_self (l : List Nat) (x : Nat) (hx : x ∉ l) :
    posOf (l ++ [x]) x = l.length := by
  induction l with
  | nil => simp [posOf]
  | cons y rest ih =>
      have hy : y ≠ x := fun h => hx (h ▸ List.mem_cons_self y rest)
      have hx2 : x ∉ rest := fun h => hx (List.mem_cons_of_mem y h)
      simp [posOf, hy, ih hx2]

theorem posOf_lt_length (l : List Nat) (x : Nat) (hx : x ∈ l) :
    posOf l x < l.length := by
  induction l with
  | nil => cases hx
  | cons y rest ih =>
      by_cases hy : y = x
      · simp [posOf, hy]
      · have hx2 : x ∈ rest := by
          cases List.mem_cons.mp hx with
          | inl h => exact absurd h.symm hy
          | inr h => exact h
        simpa [posOf, hy] using Nat.succ_lt_succ (ih hx2)

theorem getD_posOf (l : List Nat) (x : Nat) (hx : x ∈ l) :
    l.getD (posOf l x) 0 = x := by
  induction l with
  | nil => cases hx
  | cons y rest ih =>
      by_cases hy : y = x
      · simp [posOf, hy]
      · have hx2 : x ∈ rest := by
          cases List.mem_cons.mp hx with
          | inl h => exact absurd h.symm hy
          | inr h => exact h
        simpa [posOf, hy] using ih hx2

theorem posOf_injective (l : List Nat) (x y : Nat) (hx : x ∈ l) (hy : y ∈ l)
    (h : posOf l x = posOf l y) : x = y := by
  have := getD_posOf l x hx
  rw [h, getD_posOf l y hy] at this
  exact this.symm

theorem lookupId_enumFrom (l : List Nat) (k x : Nat) :
    lookupId (enumFrom k l) x =
      if x ∈ l then some (k + posOf l x) else none := by
  induction l generalizing k with
  | nil => simp [enumFrom, lookupId]
  | cons y rest ih =>
      by_cases hy : y = x
      · simp [enumFrom, lookupId, hy, posOf]
      · have hyx : ¬ x = y := fun h => hy h.symm
        have this : x ∈ y :: rest ↔ x ∈ rest := by
          simp [List.mem_cons, hyx]
        by_cases hx : x ∈ rest
        · simp [enumFrom, lookupId, hy, posOf, ih, hx, this,
                Nat.add_comm, Nat.add_assoc, Nat.add_left_comm]
        · simp [enumFrom, lookupId, hy, posOf, ih, hx, this]

theorem enumFrom_append (l : List Nat) (k x : Nat) :
    enumFrom k (l ++ [x]) = enumFrom k l ++ [(x, k + l.length)] := by
  induction l generalizing k with
  | nil => simp [enumFrom]
  | cons y rest ih =>
      simp [enumFrom, ih, Nat.add_comm, Nat.add_assoc, Nat.add_left_comm]

theorem mem_firstSeen_append_self (p : List Nat) (x : Nat) :
    x ∈ firstSeen (p ++ [x]) := by
  rw [firstSeen_append_single]
  by_cases hx : x ∈ firstSeen p
  · simp [hx]
  · simp [hx]

theorem firstSeen_append_extends (a b : List Nat) :
    ∃ t, firstSeen (a ++ b) = firstSeen a ++ t := by
  simpa [firstSeen, seenAcc_append] using seenAcc_extends (firstSeen a) b

theorem mem_firstSeen_of_mem (l : List Nat) (x : Nat) (hx : x ∈ l) :
    x ∈ firstSeen l := by
  obtain ⟨s, t, hst⟩ := List.append_of_mem hx
  subst hst
  have h1 : x ∈ firstSeen (s ++ [x]) := mem_firstSeen_append_self s x
  obtain ⟨u, hu⟩ := firstSeen_append_extends (s ++ [x]) t
  have happ : s ++ x :: t = (s ++ [x]) ++ t := by simp
  rw [happ, hu]
  exact List.mem_append_left _ h1

theorem map_window_id_regOf (p : List Nat) (x : Nat)
    (hb : (firstSeen (p ++ [x])).length < U64MOD) :
    (regOf p).map_window_id x
      = (posOf (firstSeen (p ++ [x])) x + 1, regOf (p ++ [x])) := by
  by_cases hx : x ∈ firstSeen p
  · have hfs : firstSeen (p ++ [x]) = firstSeen p := by
      simp [firstSeen_append_single, hx]
    simp [App.map_window_id, regOf, lookupId_enumFrom, hx, hfs, Nat.add_comm]
  · have hfs : firstSeen (p ++ [x]) = firstSeen p ++ [x] := by
      simp [firstSeen_append_single, hx]
    have hlen : (firstSeen p).length + 1 < U64MOD := by
      simpa [hfs] using hb
    have hmod : ((firstSeen p).length + 1) % U64MOD = (firstSeen p).length + 1 :=
      Nat.mod_eq_of_lt hlen
    have hmod2 : (1 + (firstSeen p).length) % U64MOD = 1 + (firstSeen p).length := by
      rw [Nat.add_comm 1]; exact hmod
    simp [App.map_window_id, regOf, lookupId_enumFrom, hx, hfs, hmod, hmod2,
          posOf_append_self _ _ hx, enumFrom_append, Nat.add_comm]

/-- Specification-level value of the whole output of resolveSeq. -/
def stableOut : List Nat → List Nat → List Nat
  | _, [] => []
  | p, x :: rest => (posOf (firstSeen (p ++ [x])) x + 1) :: stableOut (p ++ [x]) rest

theorem resolveSeq_regOf (rest : List Nat) : ∀ (p : List Nat),
    (firstSeen (p ++ rest)).length < U64MOD →
    resolveSeq (regOf p) rest = (stableOut p rest, regOf (p ++ rest)) := by
  induction rest with
  | nil => intro p hb; simp [resolveSeq, stableOut]
  | cons x rest2 ih =>
      intro p hb
      have happ : p ++ x :: rest2 = (p ++ [x]) ++ rest2 := by simp
      have hb2 : (firstSeen ((p ++ [x]) ++ rest2)).length < U64MOD := by
        rw [← happ]; exact hb
      have hb1 : (firstSeen (p ++ [x])).length < U64MOD :=
        lt_of_le_of_lt (length_firstSeen_mono (p ++ [x]) rest2) hb2
      have hstep := map_window_id_regOf p x hb1
      have hih := ih (p ++ [x]) hb2
      simp only [resolveSeq, hstep, hih, stableOut]
      simp [List.append_assoc]

theorem stableOut_length (rest : List Nat) : ∀ (p : List Nat),
    (stableOut p rest).length = rest.length := by
  induction rest with
  | nil => intro p; simp [stableOut]
  | cons x rest2 ih => intro p; simp [stableOut, ih]

theorem stableOut_getD (rest : List Nat) : ∀ (p : List Nat) (i : Nat),
    i < rest.length →
    (stableOut p rest).getD i 0
      = posOf (firstSeen (p ++ rest)) (rest.getD i 0) + 1 := by
  induction rest with
  | nil => intro p i hi; cases hi
  | cons x rest2 ih =>
      intro p i hi
      have happ : p ++ x :: rest2 = (p ++ [x]) ++ rest2 := by simp
      cases i with
      | zero =>
          have hx : x ∈ firstSeen (p ++ [x]) := mem_firstSeen_append_self p x
          obtain ⟨u, hu⟩ := firstSeen_append_extends (p ++ [x]) rest2
          have hpos : posOf (firstSeen ((p ++ [x]) ++ rest2)) x
              = posOf (firstSeen (p ++ [x])) x := by
            rw [hu]; exact posOf_append_left _ _ _ hx
          simp only [stableOut, List.getD_cons_zero]
          rw [happ, hpos]
      | succ j =>
          have hj : j < rest2.length := Nat.lt_of_succ_lt_succ hi
          simp only [stableOut, List.getD_cons_succ]
          rw [happ]
          exact ih (p ++ [x]) j hj

theorem App_init_eq_regOf_nil : App.init = regOf [] := by
  have h1 : (0 + 1) % U64MOD = 1 := by norm_num [U64MOD]
  simp [App.init, regOf, firstSeen, seenAcc, enumFrom, h1]

theorem map_snd_enumFrom (l : List Nat) : ∀ (k : Nat),
    (enumFrom k l).map Prod.snd = List.range' k l.length := by
  induction l with
  | nil => intro k; simp [enumFrom]
  | cons x rest ih => intro k; simp [enumFrom, ih, List.range'_succ]

theorem getD_mem_of_lt (l : List Nat) (i : Nat) (hi : i < l.length) :
    l.getD i 0 ∈ l := by
  induction l generalizing i with
  | nil => cases hi
  | cons x rest ih =>
      cases i with
      | zero => simp
      | succ j =>
          have hj : j < rest.length := Nat.lt_of_succ_lt_succ hi
          simpa using Or.inr (ih j hj)

/-- C1: for every sequence of native window ids presented to the registry of a
single App, resolve (map_window_id) is stable under repetition, injective across
distinct native ids, and allocates 1, 2, 3, ... in order of first observation;
in particular the sequence A, B, A, C resolves to 1, 2, 1, 3. Each output
element equals one plus the position of its native id in the first-observation
order of the whole sequence, which packages all three properties. The length
bound keeps the u64 counter below its wrap-around point, which the spec places
out of practical scope. -/
theorem C1_registry_stable_resolution (ids : List Nat) (hlen : ids.length < 2 ^ 64) :
    (∀ i, i < ids.length →
        (resolveSeq App.init ids).1.getD i 0
          = posOf (firstSeen ids) (ids.getD i 0) + 1)
  ∧ (∀ i j, i < ids.length → j < ids.length → ids.getD i 0 = ids.getD j 0 →
        (resolveSeq App.init ids).1.getD i 0 = (resolveSeq App.init ids).1.getD j 0)
  ∧ (∀ i j, i < ids.length → j < ids.length → ids.getD i 0 ≠ ids.getD j 0 →
        (resolveSeq App.init ids).1.getD i 0 ≠ (resolveSeq App.init ids).1.getD j 0)
  ∧ (resolveSeq App.init [100, 200, 100, 300]).1 = [1, 2, 1, 3] := by
  have hb : (firstSeen ([] ++ ids)).length < U64MOD := by
    have := length_firstSeen_le ids
    simpa [U64MOD] using lt_of_le_of_lt this hlen
  have hmain : resolveSeq App.init ids = (stableOut [] ids, regOf ids) := by
    rw [App_init_eq_regOf_nil]
    simpa using resolveSeq_regOf ids [] hb
  have hchar : ∀ i, i < ids.length →
      (resolveSeq App.init ids).1.getD i 0
        = posOf (firstSeen ids) (ids.getD i 0) + 1 := by
    intro i hi
    rw [hmain]
    simpa using stableOut_getD ids [] i hi
  refine ⟨hchar, ?_, ?_, ?_⟩
  · intro i j hi hj hij
    rw [hchar i hi, hchar j hj, hij]
  · intro i j hi hj hij
    rw [hchar i hi, hchar j hj]
    intro heq
    have hpos : posOf (firstSeen ids) (ids.getD i 0)
        = posOf (firstSeen ids) (ids.getD j 0) := by omega
    exact hij (posOf_injective _ _ _
      (mem_firstSeen_of_mem _ _ (getD_mem_of_lt ids i hi))
      (mem_firstSeen_of_mem _ _ (getD_mem_of_lt ids j hj)) hpos)
  · decide

/-- Witness for C1 at the concrete scenario sequence A = 100, B = 200, C = 300. -/
theorem C1_registry_stable_resolution_witness :
    ([100, 200, 100, 300] : List Nat).length < 2 ^ 64 ∧
      (resolveSeq App.init [100, 200, 100, 300]).1 = [1, 2, 1, 3] :=
  ⟨by norm_num,
   (C1_registry_stable_resolution [100, 200, 100, 300] (by norm_num)).2.2.2⟩

/-- C8: stable window ids are unique per process run: the registry map reached
after any sequence of resolutions never assigns one stable id to two different
native ids, and the assigned stable ids are exactly 1, 2, ..., n in allocation
order, starting at 1 and incremented by 1 per newly seen native id. -/
theorem C8_stable_id_unique_per_run (ids : List Nat) (hlen : ids.length < 2 ^ 64) :
    (∀ a b va vb,
        lookupId (resolveSeq App.init ids).2.window_ids a = some va →
        lookupId (resolveSeq App.init ids).2.window_ids b = some vb →
        va = vb → a = b)
  ∧ (resolveSeq App.init ids).2.window_ids.map Prod.snd
      = List.range' 1 (firstSeen ids).length := by
  have hb : (firstSeen ([] ++ ids)).length < U64MOD := by
    have := length_firstSeen_le ids
    simpa [U64MOD] using lt_of_le_of_lt this hlen
  have hmain : resolveSeq App.init ids = (stableOut [] ids, regOf ids) := by
    rw [App_init_eq_regOf_nil]
    simpa using resolveSeq_regOf ids [] hb
  have hwin : (resolveSeq App.init ids).2.window_ids = enumFrom 1 (firstSeen ids) := by
    rw [hmain]; rfl
  constructor
  · intro a b va vb ha hb2 hvab
    rw [hwin, lookupId_enumFrom] at ha hb2
    by_cases hma : a ∈ firstSeen ids
    · by_cases hmb : b ∈ firstSeen ids
      · simp [hma] at ha
        simp [hmb] at hb2
        have : posOf (firstSeen ids) a = posOf (firstSeen ids) b := by omega
        exact posOf_injective _ _ _ hma hmb this
      · simp [hmb] at hb2
    · simp [hma] at ha
  · rw [hwin, map_snd_enumFrom]

/-- Witness for C8 at the concrete sequence 5, 7, 5. -/
theorem C8_stable_id_unique_per_run_witness :
    ([5, 7, 5] : List Nat).length < 2 ^ 64 ∧
      (resolveSeq App.init [5, 7, 5]).2.window_ids.map Prod.snd
        = List.range' 1 (firstSeen [5, 7, 5]).length :=
  ⟨by norm_num, (C8_stable_id_unique_per_run [5, 7, 5] (by norm_num)).2⟩

/-! ## Error type (types.rs lines 9 to 24) -/

/-- The TaoError enum of types.rs lines 9 to 16: exactly two variants, Message
with a details string and Unsupported. -/
inductive TaoError where
  | Message (details : String)
  | Unsupported
deriving DecidableEq, Repr

/-- TaoError::message (types.rs lines 18 to 24). -/
def TaoError.message (s : String) : TaoError := TaoError.Message s

/-- The error taxonomy exactly as the specification words it in section 7:
Message, Unsupported and NotBound. Stated from the words of the spec, not from
the code, so the two can be compared; the code errors read into it through
TaoError.toSpec. -/
inductive SpecTaoError where
  | Message (details : String)
  | Unsupported
  | NotBound
deriving DecidableEq, Repr

/-- The natural reading of a code-level error in the spec taxonomy. -/
def TaoError.toSpec : TaoError → SpecTaoError
  | .Message d => .Message d
  | .Unsupported => .Unsupported

/-! ## Scoped target access and the App operations
(app.rs lines 14 to 31, 89 to 103 and 106 to 145) -/

/-- A monitor handle reported by the native engine; the binding layer only
wraps it, so it is an abstract value here. -/
structure Monitor where
  handle : Nat
deriving DecidableEq, Repr

/-- A native window produced by WindowBuilder::build; the binding layer reads
its native window id and stores the rest untouched. -/
structure TaoNativeWindow where
  native_id : Nat
deriving DecidableEq, Repr

/-- The live EventLoopWindowTarget the native engine passes to a callback,
modelled by the results of the native queries the App operations perform on it:
the monitor list, the primary monitor, and the outcome of realizing the window
builder being applied (ok window, or the native construction error already
converted by TaoError::from). -/
structure EventLoopWindowTarget where
  available : List Monitor
  primary : Option Monitor
  buildResult : Except TaoError TaoNativeWindow
deriving Repr

/-- The thread-local CURRENT_TARGET slot (app.rs lines 14 to 16): a null
pointer is none, a set pointer is some target. -/
abbrev CurrentTarget := Option EventLoopWindowTarget

/-- The details string of the error with_target produces on a null slot
(app.rs lines 96 to 98). -/
def noActiveTargetDetails : String :=
  "No active EventLoopWindowTarget (call this from within the event loop callback)"

/-- App::with_target (app.rs lines 89 to 103): if the slot is null, fail with
TaoError::message of the no-active-target details; otherwise run the closure on
the bound target and wrap its result in Ok. -/
def with_target {R : Type} (slot : CurrentTarget) (f : EventLoopWindowTarget → R) :
    Except TaoError R :=
  match slot with
  | none => Except.error (TaoError.message noActiveTargetDetails)
  | some target => Except.ok (f target)

/-- A window handle as returned by App::create_window (window.rs): the stable
id paired with ownership of the native window object. -/
structure Window where
  id : Nat
  inner : TaoNativeWindow
deriving DecidableEq, Repr

/-- App::create_window (app.rs lines 114 to 127): with_target runs the builder
against the bound target, the question mark operator propagates the unbound
error, and on native success the new native id is resolved through
map_window_id and paired with the window. -/
def App.create_window (app : App) (slot : CurrentTarget) :
    Except TaoError (Window × App) :=
  match (match with_target slot (fun target => target.buildResult) with
         | Except.error e => Except.error e
         | Except.ok r => r) with
  | Except.error e => Except.error e
  | Except.ok tao_window =>
      let step := app.map_window_id tao_window.native_id
      Except.ok ({ id := step.1, inner := tao_window }, step.2)

/-- App::available_monitors (app.rs lines 133 to 140): with_target collects the
monitors into an Ok, and the question mark operator flattens the outer Result. -/
def App.available_monitors (slot : CurrentTarget) : Except TaoError (List Monitor) :=
  match with_target slot
      (fun target => (Except.ok target.available : Except TaoError (List Monitor))) with
  | .error e => .error e
  | .ok r => r

/-- App::primary_monitor (app.rs lines 142 to 144). -/
def App.primary_monitor (slot : CurrentTarget) : Except TaoError (Option Monitor) :=
  match with_target slot
      (fun target => (Except.ok target.primary : Except TaoError (Option Monitor))) with
  | .error e => .error e
  | .ok r => r

/-- C3 counterexample: the claim says an unbound call fails with the NotBound
error of the taxonomy Message, Unsupported, NotBound, but the TaoError type of
the code has no NotBound variant at all: the unbound call fails with the
Message variant carrying the no-active-target details, whose reading in the
spec taxonomy is Message, not NotBound. -/
theorem C3_counterexample :
    App.available_monitors none
        = Except.error (TaoError.Message noActiveTargetDetails)
    ∧ (TaoError.Message noActiveTargetDetails).toSpec ≠ SpecTaoError.NotBound := by
  exact ⟨rfl, by simp [TaoError.toSpec]⟩

/-- C3 (amended): every context-bound App operation (create_window,
available_monitors, primary_monitor) invoked while no context is bound fails
with the Message error carrying the no-active-target details string (the code
error taxonomy is Message and Unsupported only; there is no NotBound variant);
invoked while a context is bound, available_monitors and primary_monitor always
succeed and create_window succeeds whenever the native build call succeeds. -/
theorem C3_unbound_ops_fail_with_message (app : App) (t : EventLoopWindowTarget) :
    App.available_monitors none
        = Except.error (TaoError.Message noActiveTargetDetails)
  ∧ App.primary_monitor none
        = Except.error (TaoError.Message noActiveTargetDetails)
  ∧ App.create_window app none
        = Except.error (TaoError.Message noActiveTargetDetails)
  ∧ App.available_monitors (some t) = Except.ok t.available
  ∧ App.primary_monitor (some t) = Except.ok t.primary
  ∧ (∀ w, t.buildResult = Except.ok w →
        App.create_window app (some t)
          = Except.ok ({ id := (app.map_window_id w.native_id).1, inner := w },
                       (app.map_window_id w.native_id).2)) := by
  refine ⟨rfl, rfl, rfl, rfl, rfl, ?_⟩
  intro w hw
  simp [App.create_window, with_target, hw]

/-- Witness for C3 (amended) at a concrete target whose native build succeeds
with a window of native id 42, resolved by a fresh registry to stable id 1. -/
theorem C3_unbound_ops_fail_with_message_witness :
    (EventLoopWindowTarget.mk [] none (Except.ok ⟨42⟩)).buildResult
        = Except.ok (⟨42⟩ : TaoNativeWindow)
    ∧ App.create_window App.init (some ⟨[], none, Except.ok ⟨42⟩⟩)
        = Except.ok ({ id := (App.init.map_window_id 42).1, inner := ⟨42⟩ },
                     (App.init.map_window_id 42).2) :=
  ⟨rfl,
   (C3_unbound_ops_fail_with_message App.init ⟨[], none, Except.ok ⟨42⟩⟩).2.2.2.2.2
     ⟨42⟩ rfl⟩

/-! ## Control flow directives (types.rs lines 167 to 190) -/

/-- The ControlFlow enum of types.rs lines 167 to 176: Keep retains the
previous control flow, WaitUntil carries a duration in milliseconds. -/
inductive ControlFlow where
  | Keep
  | Wait
  | Poll
  | Exit
  | WaitUntil (duration_ms : Nat)
deriving DecidableEq, Repr

/-- The native tao::event_loop::ControlFlow values; instants are modelled as
absolute times in milliseconds. -/
inductive NativeControlFlow where
  | Wait
  | Poll
  | Exit
  | WaitUntil (instant : Nat)
deriving DecidableEq, Repr

/-- ControlFlow::to_tao (types.rs lines 178 to 190): Keep maps to None, every
other directive to Some of the native value, WaitUntil to the instant
Instant::now() + Duration::from_millis(duration_ms); now is the current instant
in milliseconds. -/
def ControlFlow.to_tao (cf : ControlFlow) (now : Nat) : Option NativeControlFlow :=
  match cf with
  | ControlFlow.Keep => none
  | ControlFlow.Wait => some NativeControlFlow.Wait
  | ControlFlow.Poll => some NativeControlFlow.Poll
  | ControlFlow.Exit => some NativeControlFlow.Exit
  | ControlFlow.WaitUntil duration_ms => some (NativeControlFlow.WaitUntil (now + duration_ms))

/-- The directive application step of the loop driver (app.rs lines 186 to 188
and 246 to 248): if let Some cf assigns the converted value to the native
control flow slot, and a None (the Keep directive) leaves it unchanged. -/
def applyDirective (cf : ControlFlow) (now : Nat) (current : NativeControlFlow) :
    NativeControlFlow :=
  match cf.to_tao now with
  | none => current
  | some c => c

/-- C5: for every event dispatched by the loop driver, the handler directive is
applied to the native control flow state unless it is Keep, which leaves the
state unchanged; Wait, Poll and Exit set the corresponding native value and
WaitUntil d sets the native wait-until instant now plus d milliseconds. -/
theorem C5_directive_application (now : Nat) (current : NativeControlFlow) :
    applyDirective ControlFlow.Keep now current = current
  ∧ applyDirective ControlFlow.Wait now current = NativeControlFlow.Wait
  ∧ applyDirective ControlFlow.Poll now current = NativeControlFlow.Poll
  ∧ applyDirective ControlFlow.Exit now current = NativeControlFlow.Exit
  ∧ (∀ d, applyDirective (ControlFlow.WaitUntil d) now current
        = NativeControlFlow.WaitUntil (now + d)) :=
  ⟨rfl, rfl, rfl, rfl, fun _ => rfl⟩

/-! ## The target guard discipline of the loop driver
(app.rs lines 18 to 31, 183 to 189 and 242 to 252) -/

/-- Outcome of one handler invocation: a normal return of a directive, or an
abnormal abort out of the callback (a Rust unwind). -/
inductive HandlerOutcome where
  | normal (cf : ControlFlow)
  | aborted (msg : String)

/-- What one dispatch of the loop driver closure records: the slot value the
handler observed while running, the slot value once the invocation ended, and
whether the handler aborted. -/
structure DispatchRecord where
  during : CurrentTarget
  after : CurrentTarget
  didAbort : Bool

/-- One callback invocation (app.rs lines 183 to 189 and 243 to 249):
TargetGuard::set stores the target in the thread-local slot before anything
else runs, the handler runs with the slot bound and may observe it through the
App operations, and the Drop of the guard resets the slot to null on every exit
path of the closure, normal return and unwind alike (the Rust drop guarantee
for the guard local). -/
def dispatchOnce (target : EventLoopWindowTarget)
    (handler : CurrentTarget → HandlerOutcome) :
    HandlerOutcome × DispatchRecord :=
  let bound : CurrentTarget := some target
  let outcome := handler bound
  (outcome,
   { during := bound,
     after := none,
     didAbort := match outcome with
                 | HandlerOutcome.normal _ => false
                 | HandlerOutcome.aborted _ => true })

/-- The loop driver run over a list of native callback invocations, threading
the thread-local slot: an aborting handler unwinds out of the run, stopping
further dispatch, after the guard of the aborted invocation has already
cleared the slot. -/
def driveLoop (handler : CurrentTarget → HandlerOutcome) :
    List EventLoopWindowTarget → CurrentTarget → List DispatchRecord × CurrentTarget
  | [], slot => ([], slot)
  | target :: rest, _slot =>
      let step := dispatchOnce target handler
      match step.1 with
      | HandlerOutcome.aborted _ => ([step.2], step.2.after)
      | HandlerOutcome.normal _ =>
          let tail := driveLoop handler rest step.2.after
          (step.2 :: tail.1, tail.2)

/-- C4: for every callback invocation of the loop driver, the slot is set to
the target immediately before the handler is invoked and reset to null when the
invocation ends on every exit path, aborts included, so the slot is null
whenever no invocation is in progress: every dispatch record shows the handler
observed some target and left the slot null, and the final slot after the run
is null unless no event was ever dispatched, in which case it is the initial
slot value. -/
theorem C4_guard_clears_slot (handler : CurrentTarget → HandlerOutcome)
    (targets : List EventLoopWindowTarget) (slot0 : CurrentTarget) :
    (∀ pr ∈ List.zip (driveLoop handler targets slot0).1 targets,
        pr.1.during = some pr.2 ∧ pr.1.after = none)
  ∧ (targets = [] ∨ (driveLoop handler targets slot0).2 = none) := by
  induction targets generalizing slot0 with
  | nil =>
      refine ⟨?_, Or.inl rfl⟩
      intro pr hpr
      simp [driveLoop, List.zip] at hpr
  | cons target rest ih =>
      constructor
      · intro pr hpr
        cases houtcome : handler (some target) with
        | aborted msg =>
            simp [driveLoop, dispatchOnce, houtcome, List.zip] at hpr
            simp [hpr]
        | normal cf =>
            simp [driveLoop, dispatchOnce, houtcome, List.zip] at hpr
            cases hpr with
            | inl h => simp [h]
            | inr h => exact (ih none).1 pr (by simpa [List.zip] using h)
      · refine Or.inr ?_
        cases houtcome : handler (some target) with
        | aborted msg => simp [driveLoop, dispatchOnce, houtcome]
        | normal cf =>
            cases (ih none).2 with
            | inl h => simp [driveLoop, dispatchOnce, houtcome, h]
            | inr h => simpa [driveLoop, dispatchOnce, houtcome] using h

/-- Witness for C4 at a one-event run whose handler aborts: the record shows
the handler saw the bound target and the slot is null afterwards. -/
theorem C4_guard_clears_slot_witness :
    ((⟨{ during := some ⟨[], none, Except.error TaoError.Unsupported⟩,
         after := none, didAbort := true }, ⟨[], none, Except.error TaoError.Unsupported⟩⟩ :
        DispatchRecord × EventLoopWindowTarget) ∈
      List.zip
        (driveLoop (fun _ => HandlerOutcome.aborted "boom")
          [⟨[], none, Except.error TaoError.Unsupported⟩] none).1
        [⟨[], none, Except.error TaoError.Unsupported⟩])
    ∧ ({ during := some ⟨[], none, Except.error TaoError.Unsupported⟩,
         after := none, didAbort := true } : DispatchRecord).during
        = some ⟨[], none, Except.error TaoError.Unsupported⟩
    ∧ ({ during := some ⟨[], none, Except.error TaoError.Unsupported⟩,
         after := none, didAbort := true } : DispatchRecord).after = none := by
  have hmem :
      ((⟨{ during := some ⟨[], none, Except.error TaoError.Unsupported⟩,
           after := none, didAbort := true }, ⟨[], none, Except.error TaoError.Unsupported⟩⟩ :
          DispatchRecord × EventLoopWindowTarget) ∈
        List.zip
          (driveLoop (fun _ => HandlerOutcome.aborted "boom")
            [⟨[], none, Except.error TaoError.Unsupported⟩] none).1
          [⟨[], none, Except.error TaoError.Unsupported⟩]) := by
    simp [driveLoop, dispatchOnce, List.zip]
  exact ⟨hmem,
    ((C4_guard_clears_slot (fun _ => HandlerOutcome.aborted "boom")
        [⟨[], none, Except.error TaoError.Unsupported⟩] none).1 _ hmem).1,
    ((C4_guard_clears_slot (fun _ => HandlerOutcome.aborted "boom")
        [⟨[], none, Except.error TaoError.Unsupported⟩] none).1 _ hmem).2⟩

/-! ## Cooperative run-return mode (app.rs lines 192 to 256) -/

/-- Observable actions of the cooperative run-return driver: the should_quit
check with its answer, one batch of native event pumping through run_return,
and one render invocation. -/
inductive RRAction where
  | check (result : Bool)
  | pumpBatch
  | renderStep
deriving DecidableEq, Repr

/-- Count occurrences of one action in a trace. -/
def countAction (a : RRAction) : List RRAction → Nat
  | [] => 0
  | b :: rest => (if b = a then 1 else 0) + countAction a rest

/-- The outer loop of run_return_loop_with_config (app.rs lines 242 to 252):
while not handler.should_quit, pump one batch through event_loop.run_return and
then invoke handler.render once. Handler behaviour is modelled as functions on
an abstract handler state S; fuel bounds the number of iterations so the model
is total and describes every finite prefix of the real execution. Returns the
trace of actions, the final handler state, and whether the loop returned to the
caller through the should_quit check (true) or the fuel ran out (false). -/
def run_return_loop {S : Type} (shouldQuit : S → Bool) (pumpB : S → S) (renderB : S → S) :
    Nat → S → List RRAction × S × Bool
  | 0, s => ([], s, false)
  | fuel + 1, s =>
      if shouldQuit s then ([RRAction.check true], s, true)
      else
        let s2 := renderB (pumpB s)
        let tail := run_return_loop shouldQuit pumpB renderB fuel s2
        (RRAction.check false :: RRAction.pumpBatch :: RRAction.renderStep :: tail.1,
         tail.2)

/-- The shape every trace of the cooperative loop has: it either stops at an
iteration boundary (fuel out), or ends with a positive should_quit check, or
starts with a negative check followed by exactly one batch and exactly one
render and continues with a trace of the same shape. -/
inductive RRTrace : List RRAction → Prop where
  | fuelOut : RRTrace []
  | quitNow : RRTrace [RRAction.check true]
  | iterate (t : List RRAction) : RRTrace t →
      RRTrace (RRAction.check false :: RRAction.pumpBatch :: RRAction.renderStep :: t)

/-- C6: in cooperative run-return mode, should_quit is evaluated strictly
before each batch and render is invoked exactly once after each batch that was
entered: every trace has the check-pump-render iteration shape, the number of
renders equals the number of batches entered and the number of negative
should_quit answers, and if should_quit already holds on entry the batch is not
entered, render runs zero times and control returns to the caller with the
handler state untouched. -/
theorem C6_run_return_discipline {S : Type} (shouldQuit : S → Bool)
    (pumpB : S → S) (renderB : S → S) (fuel : Nat) (s : S) :
    RRTrace (run_return_loop shouldQuit pumpB renderB fuel s).1
  ∧ countAction RRAction.renderStep (run_return_loop shouldQuit pumpB renderB fuel s).1
      = countAction RRAction.pumpBatch (run_return_loop shouldQuit pumpB renderB fuel s).1
  ∧ countAction RRAction.renderStep (run_return_loop shouldQuit pumpB renderB fuel s).1
      = countAction (RRAction.check false) (run_return_loop shouldQuit pumpB renderB fuel s).1
  ∧ (shouldQuit s = true → 0 < fuel →
        run_return_loop shouldQuit pumpB renderB fuel s = ([RRAction.check true], s, true)) := by
  induction fuel generalizing s with
  | zero =>
      refine ⟨RRTrace.fuelOut, rfl, rfl, ?_⟩
      intro _ hfuel
      cases hfuel
  | succ fuel ih =>
      by_cases hq : shouldQuit s = true
      · refine ⟨?_, ?_, ?_, ?_⟩
        · simpa [run_return_loop, hq] using RRTrace.quitNow
        · simp [run_return_loop, hq, countAction]
        · simp [run_return_loop, hq, countAction]
        · intro _ _; simp [run_return_loop, hq]
      · have hq2 : shouldQuit s = false := by
          cases h : shouldQuit s with
          | true => exact absurd h hq
          | false => rfl
        obtain ⟨htr, hrp, hrc, _⟩ := ih (renderB (pumpB s))
        refine ⟨?_, ?_, ?_, ?_⟩
        · simpa [run_return_loop, hq2] using RRTrace.iterate _ htr
        · simp [run_return_loop, hq2, countAction, hrp]
        · simp [run_return_loop, hq2, countAction, hrc]
        · intro hcontra _; rw [hcontra] at hq2; cases hq2

/-- Witness for C6 on a concrete counter handler: should_quit holds once the
counter reaches 1, each pump increments it; starting at 1 the loop returns at
once with no batch and no render, starting at 0 it runs exactly one iteration. -/
theorem C6_run_return_discipline_witness :
    ((fun n => Nat.ble 1 n) (1 : Nat) = true ∧ 0 < 5)
    ∧ run_return_loop (fun n => Nat.ble 1 n) (fun n => n + 1) (fun n => n) 5 1
        = ([RRAction.check true], 1, true) :=
  ⟨⟨rfl, by norm_num⟩,
   (C6_run_return_discipline (fun n => Nat.ble 1 n) (fun n => n + 1) (fun n => n) 5 1).2.2.2
     rfl (by norm_num)⟩

/-! ## Event translation (events.rs, with the conversions of types.rs)

Native types from the tao crate are closed off in Rust with non_exhaustive
catch-all arms; here every native type carries an extra unrecognized
constructor holding the Debug rendering of whatever unenumerated variant it
stands for, which is all the conversion code ever reads from such a value.
Dropped native fields (device ids, synthetic flags, timer instants) are kept in
the model to show the projection. -/

/-- Binding layer ElementState (types.rs lines 56 to 60). -/
inductive ElementState where
  | Pressed
  | Released
deriving DecidableEq, Repr

/-- Native tao::event::ElementState. -/
inductive NativeElementState where
  | Pressed
  | Released
  | unrecognized (dbg : String)
deriving DecidableEq, Repr

/-- From tao ElementState (types.rs lines 62 to 70): the catch-all arm yields
Released. -/
def ElementState.from_tao : NativeElementState → ElementState
  | NativeElementState.Pressed => ElementState.Pressed
  | NativeElementState.Released => ElementState.Released
  | NativeElementState.unrecognized _ => ElementState.Released

/-- Binding layer Key (types.rs lines 192 to 199). -/
inductive Key where
  | Escape
  | ArrowLeft
  | ArrowRight
  | Character (value : String)
  | Other (value : String)
deriving DecidableEq, Repr

/-- Native tao::keyboard::Key. -/
inductive NativeKey where
  | Escape
  | ArrowLeft
  | ArrowRight
  | Character (s : String)
  | unrecognized (dbg : String)
deriving DecidableEq, Repr

/-- From tao Key (types.rs lines 201 to 216): unmatched keys carry their Debug
rendering in Other. -/
def Key.from_tao : NativeKey → Key
  | NativeKey.Escape => Key.Escape
  | NativeKey.ArrowLeft => Key.ArrowLeft
  | NativeKey.ArrowRight => Key.ArrowRight
  | NativeKey.Character s => Key.Character s
  | NativeKey.unrecognized dbg => Key.Other dbg

/-- Binding layer KeyCode (types.rs lines 218 to 227). -/
inductive KeyCode where
  | Space
  | KeyA
  | KeyD
  | KeyL
  | KeyM
  | KeyV
  | Other (value : String)
deriving DecidableEq, Repr

/-- Native tao::keyboard::KeyCode. -/
inductive NativeKeyCode where
  | Space
  | KeyA
  | KeyD
  | KeyL
  | KeyM
  | KeyV
  | unrecognized (dbg : String)
deriving DecidableEq, Repr

/-- From tao KeyCode (types.rs lines 229 to 244). -/
def KeyCode.from_tao : NativeKeyCode → KeyCode
  | NativeKeyCode.Space => KeyCode.Space
  | NativeKeyCode.KeyA => KeyCode.KeyA
  | NativeKeyCode.KeyD => KeyCode.KeyD
  | NativeKeyCode.KeyL => KeyCode.KeyL
  | NativeKeyCode.KeyM => KeyCode.KeyM
  | NativeKeyCode.KeyV => KeyCode.KeyV
  | NativeKeyCode.unrecognized dbg => KeyCode.Other dbg

/-- Binding layer ModifiersState (types.rs lines 261 to 267). -/
structure ModifiersState where
  shift : Bool
  control : Bool
  alt : Bool
  super_key : Bool
deriving DecidableEq, Repr

/-- Native tao::keyboard::ModifiersState, modelled by the four query results
the conversion reads. -/
structure NativeModifiersState where
  shift_key : Bool
  control_key : Bool
  alt_key : Bool
  super_key : Bool
deriving DecidableEq, Repr

/-- From tao ModifiersState (types.rs lines 269 to 278). -/
def ModifiersState.from_tao (m : NativeModifiersState) : ModifiersState :=
  { shift := m.shift_key, control := m.control_key,
    alt := m.alt_key, super_key := m.super_key }

/-- Binding layer MouseButton (types.rs lines 280 to 286); the value field is a
u16, carried through unchanged and therefore modelled as Nat. -/
inductive MouseButton where
  | Left
  | Right
  | Middle
  | Other (value : Nat)
deriving DecidableEq, Repr

/-- Native tao::event::MouseButton. -/
inductive NativeMouseButton where
  | Left
  | Right
  | Middle
  | Other (value : Nat)
  | unrecognized (dbg : String)
deriving DecidableEq, Repr

/-- From tao MouseButton (types.rs lines 288 to 299): the catch-all arm yields
Other with value 0. -/
def MouseButton.from_tao : NativeMouseButton → MouseButton
  | NativeMouseButton.Left => MouseButton.Left
  | NativeMouseButton.Right => MouseButton.Right
  | NativeMouseButton.Middle => MouseButton.Middle
  | NativeMouseButton.Other v => MouseButton.Other v
  | NativeMouseButton.unrecognized _ => MouseButton.Other 0

/-- From MouseButton for tao (types.rs lines 301 to 310). -/
def MouseButton.into_tao : MouseButton → NativeMouseButton
  | MouseButton.Left => NativeMouseButton.Left
  | MouseButton.Right => NativeMouseButton.Right
  | MouseButton.Middle => NativeMouseButton.Middle
  | MouseButton.Other v => NativeMouseButton.Other v

/-- Physical position with f64 coordinates (types.rs lines 149 to 165); the
native and binding types are field-for-field copies of one another, so one
structure stands for both. -/
structure PhysicalPositionF64 where
  x : F64
  y : F64
deriving DecidableEq, Repr

/-- Physical position with i32 coordinates (types.rs lines 131 to 147). -/
structure PhysicalPositionI32 where
  x : Int
  y : Int
deriving DecidableEq, Repr

/-- Physical size with u32 dimensions (types.rs lines 110 to 129). -/
structure PhysicalSizeU32 where
  width : Nat
  height : Nat
deriving DecidableEq, Repr

/-- Binding layer MouseScrollDelta (types.rs lines 312 to 317). -/
inductive MouseScrollDelta where
  | LineDelta (x : F32) (y : F32)
  | PixelDelta (x : F64) (y : F64)
  | Other (value : String)
deriving DecidableEq, Repr

/-- Native tao::event::MouseScrollDelta. -/
inductive NativeMouseScrollDelta where
  | LineDelta (x : F32) (y : F32)
  | PixelDelta (p : PhysicalPositionF64)
  | unrecognized (dbg : String)
deriving DecidableEq, Repr

/-- From tao MouseScrollDelta (types.rs lines 319 to 329). -/
def MouseScrollDelta.from_tao : NativeMouseScrollDelta → MouseScrollDelta
  | NativeMouseScrollDelta.LineDelta x y => MouseScrollDelta.LineDelta x y
  | NativeMouseScrollDelta.PixelDelta p => MouseScrollDelta.PixelDelta p.x p.y
  | NativeMouseScrollDelta.unrecognized dbg => MouseScrollDelta.Other dbg

/-- Binding layer Theme (types.rs lines 331 to 335). -/
inductive Theme where
  | Light
  | Dark
deriving DecidableEq, Repr

/-- Native tao::window::Theme. -/
inductive NativeTheme where
  | Light
  | Dark
  | unrecognized (dbg : String)
deriving DecidableEq, Repr

/-- From tao Theme (types.rs lines 337 to 345): the catch-all arm yields
Light. -/
def Theme.from_tao : NativeTheme → Theme
  | NativeTheme.Light => Theme.Light
  | NativeTheme.Dark => Theme.Dark
  | NativeTheme.unrecognized _ => Theme.Light

/-- TaoUserEvent (events.rs lines 8 to 12): the crate type itself, used on
both sides of the boundary without conversion. -/
inductive TaoUserEvent where
  | Timer
  | Message (value : String)
deriving DecidableEq, Repr

/-- Binding layer TaoStartCause (events.rs lines 14 to 21). -/
inductive TaoStartCause where
  | Init
  | Poll
  | WaitCancelled
  | ResumeTimeReached
  | Other (value : String)
deriving DecidableEq, Repr

/-- Native tao::event::StartCause; timer instants are milliseconds, dropped by
the conversion. -/
inductive NativeStartCause where
  | Init
  | Poll
  | WaitCancelled (start : Nat) (requested_resume : Option Nat)
  | ResumeTimeReached (start : Nat) (requested_resume : Nat)
  | unrecognized (dbg : String)
deriving DecidableEq, Repr

/-- From tao StartCause (events.rs lines 23 to 35): the instant fields are
discarded by the double-dot patterns. -/
def TaoStartCause.from_tao : NativeStartCause → TaoStartCause
  | NativeStartCause.Init => TaoStartCause.Init
  | NativeStartCause.Poll => TaoStartCause.Poll
  | NativeStartCause.WaitCancelled _ _ => TaoStartCause.WaitCancelled
  | NativeStartCause.ResumeTimeReached _ _ => TaoStartCause.ResumeTimeReached
  | NativeStartCause.unrecognized dbg => TaoStartCause.Other dbg

/-- Native tao::event::RawKeyEvent, with the two fields the conversion reads. -/
structure NativeRawKeyEvent where
  physical_key : NativeKeyCode
  state : NativeElementState
deriving DecidableEq, Repr

/-- Binding layer RawKeyEvent (events.rs lines 37 to 41). -/
structure RawKeyEvent where
  physical_key : KeyCode
  state : ElementState
deriving DecidableEq, Repr

/-- From tao RawKeyEvent (events.rs lines 43 to 50). -/
def RawKeyEvent.from_tao (e : NativeRawKeyEvent) : RawKeyEvent :=
  { physical_key := KeyCode.from_tao e.physical_key,
    state := ElementState.from_tao e.state }

/-- Native tao::event::KeyEvent; the repeated flag is a native field the
conversion drops. -/
structure NativeKeyEvent where
  physical_key : NativeKeyCode
  logical_key : NativeKey
  state : NativeElementState
  repeated : Bool
deriving DecidableEq, Repr

/-- Binding layer KeyEvent (events.rs lines 52 to 57). -/
structure KeyEvent where
  physical_key : KeyCode
  logical_key : Key
  state : ElementState
deriving DecidableEq, Repr

/-- From tao KeyEvent (events.rs lines 59 to 67). -/
def KeyEvent.from_tao (e : NativeKeyEvent) : KeyEvent :=
  { physical_key := KeyCode.from_tao e.physical_key,
    logical_key := Key.from_tao e.logical_key,
    state := ElementState.from_tao e.state }

/-- Native tao::event::WindowEvent. The variants the conversion matches keep
their read fields plus the dropped ones (device ids, synthetic flags); Resized,
Focused and CursorLeft are concrete variants the conversion does not match, and
unrecognized stands for any further unenumerated variant through its Debug
rendering. Dropped file paths are modelled by their text, on which the lossy
conversion of path_to_string is the identity. -/
inductive NativeWindowEvent where
  | CloseRequested
  | Destroyed
  | DroppedFile (path : String)
  | KeyboardInput (device_id : Nat) (event : NativeKeyEvent) (is_synthetic : Bool)
  | ModifiersChanged (modifiers : NativeModifiersState)
  | CursorMoved (device_id : Nat) (position : PhysicalPositionF64)
  | CursorEntered (device_id : Nat)
  | MouseInput (device_id : Nat) (state : NativeElementState) (button : NativeMouseButton)
  | Moved (position : PhysicalPositionI32)
  | ThemeChanged (theme : NativeTheme)
  | Resized (size : PhysicalSizeU32)
  | Focused (focused : Bool)
  | CursorLeft (device_id : Nat)
  | unrecognized (dbg : String)
deriving DecidableEq, Repr

/-- The Debug rendering of a native window event the catch-all arm formats;
only variants the conversion does not match explicitly can reach that arm, so
the matched ones render to the empty string here. -/
def NativeWindowEvent.debugRender : NativeWindowEvent → String
  | NativeWindowEvent.Resized size =>
      "Resized(PhysicalSize(" ++ toString size.width ++ ", " ++ toString size.height ++ "))"
  | NativeWindowEvent.Focused focused => "Focused(" ++ toString focused ++ ")"
  | NativeWindowEvent.CursorLeft device_id =>
      "CursorLeft(device_id: " ++ toString device_id ++ ")"
  | NativeWindowEvent.unrecognized dbg => dbg
  | _ => ""

/-- Binding layer TaoWindowEvent (events.rs lines 69 to 85). -/
inductive TaoWindowEvent where
  | CloseRequested
  | Destroyed
  | DroppedFile (path : String)
  | KeyboardInput (event : KeyEvent)
  | ModifiersChanged (modifiers : ModifiersState)
  | CursorMoved (position : PhysicalPositionF64)
  | CursorEntered
  | MouseInput (state : ElementState) (button : MouseButton)
  | Moved (position : PhysicalPositionI32)
  | ThemeChanged (theme : Theme)
  | Other (value : String)
deriving DecidableEq, Repr

/-- path_to_string (events.rs lines 87 to 89): to_string_lossy on the modelled
path text. -/
def path_to_string (path : String) : String := path

/-- From tao WindowEvent (events.rs lines 91 to 123): ten explicitly matched
variants, everything else degrades to Other with its Debug rendering. -/
def TaoWindowEvent.from_tao : NativeWindowEvent → TaoWindowEvent
  | NativeWindowEvent.CloseRequested => TaoWindowEvent.CloseRequested
  | NativeWindowEvent.Destroyed => TaoWindowEvent.Destroyed
  | NativeWindowEvent.DroppedFile path => TaoWindowEvent.DroppedFile (path_to_string path)
  | NativeWindowEvent.KeyboardInput _ event _ =>
      TaoWindowEvent.KeyboardInput (KeyEvent.from_tao event)
  | NativeWindowEvent.ModifiersChanged modifiers =>
      TaoWindowEvent.ModifiersChanged (ModifiersState.from_tao modifiers)
  | NativeWindowEvent.CursorMoved _ position => TaoWindowEvent.CursorMoved position
  | NativeWindowEvent.CursorEntered _ => TaoWindowEvent.CursorEntered
  | NativeWindowEvent.MouseInput _ state button =>
      TaoWindowEvent.MouseInput (ElementState.from_tao state) (MouseButton.from_tao button)
  | NativeWindowEvent.Moved position => TaoWindowEvent.Moved position
  | NativeWindowEvent.ThemeChanged theme => TaoWindowEvent.ThemeChanged (Theme.from_tao theme)
  | e => TaoWindowEvent.Other e.debugRender

/-- Native tao::event::DeviceEvent; Added and Removed are concrete variants the
conversion does not match, unrecognized stands for any further one. -/
inductive NativeDeviceEvent where
  | MouseMotion (delta_x : F64) (delta_y : F64)
  | MouseWheel (delta : NativeMouseScrollDelta)
  | Button (button : Nat) (state : NativeElementState)
  | Key (event : NativeRawKeyEvent)
  | Added
  | Removed
  | unrecognized (dbg : String)
deriving DecidableEq, Repr

/-- The Debug rendering of a native device event the catch-all arm formats. -/
def NativeDeviceEvent.debugRender : NativeDeviceEvent → String
  | NativeDeviceEvent.Added => "Added"
  | NativeDeviceEvent.Removed => "Removed"
  | NativeDeviceEvent.unrecognized dbg => dbg
  | _ => ""

/-- Binding layer TaoDeviceEvent (events.rs lines 125 to 132). -/
inductive TaoDeviceEvent where
  | MouseMotion (delta_x : F64) (delta_y : F64)
  | MouseWheel (delta : MouseScrollDelta)
  | Button (button : Nat) (state : ElementState)
  | Key (event : RawKeyEvent)
  | Other (value : String)
deriving DecidableEq, Repr

/-- From tao DeviceEvent (events.rs lines 134 to 155). -/
def TaoDeviceEvent.from_tao : NativeDeviceEvent → TaoDeviceEvent
  | NativeDeviceEvent.MouseMotion dx dy => TaoDeviceEvent.MouseMotion dx dy
  | NativeDeviceEvent.MouseWheel delta =>
      TaoDeviceEvent.MouseWheel (MouseScrollDelta.from_tao delta)
  | NativeDeviceEvent.Button button state =>
      TaoDeviceEvent.Button button (ElementState.from_tao state)
  | NativeDeviceEvent.Key event => TaoDeviceEvent.Key (RawKeyEvent.from_tao event)
  | e => TaoDeviceEvent.Other e.debugRender

/-- Native tao::event::Event. Suspended, Resumed and Opened are the concrete
variants convert_event does not match, unrecognized stands for any further
one. Native window ids are Nat as in the registry model; device events carry
the device id the conversion drops. -/
inductive NativeEvent where
  | NewEvents (cause : NativeStartCause)
  | WindowEvent (window_id : Nat) (event : NativeWindowEvent)
  | DeviceEvent (device_id : Nat) (event : NativeDeviceEvent)
  | UserEvent (event : TaoUserEvent)
  | MainEventsCleared
  | RedrawRequested (window_id : Nat)
  | RedrawEventsCleared
  | Reopen (has_visible_windows : Bool)
  | LoopDestroyed
  | Suspended
  | Resumed
  | Opened (urls : List String)
  | unrecognized (dbg : String)
deriving DecidableEq, Repr

/-- The Debug rendering of a native event the catch-all arm of convert_event
formats. -/
def NativeEvent.debugRender : NativeEvent → String
  | NativeEvent.Suspended => "Suspended"
  | NativeEvent.Resumed => "Resumed"
  | NativeEvent.Opened urls => "Opened(urls: [" ++ String.intercalate ", " urls ++ "])"
  | NativeEvent.unrecognized dbg => dbg
  | _ => ""

/-- Binding layer TaoEvent (events.rs lines 157 to 169). -/
inductive TaoEvent where
  | NewEvents (cause : TaoStartCause)
  | WindowEvent (window_id : Nat) (event : TaoWindowEvent)
  | DeviceEvent (event : TaoDeviceEvent)
  | UserEvent (event : TaoUserEvent)
  | MainEventsCleared
  | RedrawRequested (window_id : Nat)
  | RedrawEventsCleared
  | Reopen (has_visible_windows : Bool)
  | LoopDestroyed
  | Other (value : String)
deriving DecidableEq, Repr

/-- convert_event (events.rs lines 171 to 205): total translation of a native
event, parameterized by the id resolution callback; window-identifying fields
pass through map_window_id, anything not explicitly matched degrades to Other
carrying its Debug rendering. -/
def convert_event (event : NativeEvent) (map_window_id : Nat → Nat) : TaoEvent :=
  match event with
  | NativeEvent.NewEvents cause => TaoEvent.NewEvents (TaoStartCause.from_tao cause)
  | NativeEvent.WindowEvent window_id ev =>
      TaoEvent.WindowEvent (map_window_id window_id) (TaoWindowEvent.from_tao ev)
  | NativeEvent.DeviceEvent _ ev => TaoEvent.DeviceEvent (TaoDeviceEvent.from_tao ev)
  | NativeEvent.UserEvent ev => TaoEvent.UserEvent ev
  | NativeEvent.MainEventsCleared => TaoEvent.MainEventsCleared
  | NativeEvent.RedrawRequested window_id =>
      TaoEvent.RedrawRequested (map_window_id window_id)
  | NativeEvent.RedrawEventsCleared => TaoEvent.RedrawEventsCleared
  | NativeEvent.Reopen h => TaoEvent.Reopen h
  | NativeEvent.LoopDestroyed => TaoEvent.LoopDestroyed
  | e => TaoEvent.Other e.debugRender

/-- The native window ids an event carries, the only inputs the id resolution
callback is ever applied to. -/
def NativeEvent.windowIds : NativeEvent → List Nat
  | NativeEvent.WindowEvent window_id _ => [window_id]
  | NativeEvent.RedrawRequested window_id => [window_id]
  | _ => []

/-- Whether convert_event reaches its catch-all arm on this event. -/
def NativeEvent.isUnmodeled : NativeEvent → Bool
  | NativeEvent.Suspended => true
  | NativeEvent.Resumed => true
  | NativeEvent.Opened _ => true
  | NativeEvent.unrecognized _ => true
  | _ => false

/-- C2: convert_event is total and deterministic. Totality and determinism on
equal inputs hold by construction, since convert_event is a plain function into
TaoEvent, not an Option or Except; the theorem states the two contentful parts:
the result depends on the id resolution callback only through its values on the
window ids the event carries, and every native variant without an explicit
mapping produces the Other catch-all carrying the Debug rendering of the
original value, so no event is dropped. -/
theorem C2_convert_event_total (e : NativeEvent) (f g : Nat → Nat) :
    ((∀ wid ∈ e.windowIds, f wid = g wid) → convert_event e f = convert_event e g)
  ∧ (e.isUnmodeled = true → convert_event e f = TaoEvent.Other e.debugRender) := by
  constructor
  · intro hfg
    cases e <;> simp_all [convert_event, NativeEvent.windowIds]
  · intro hun
    cases e <;> simp_all [convert_event, NativeEvent.isUnmodeled, NativeEvent.debugRender]

/-- Witness for C2: the unmodeled Suspended lifecycle event translates to the
Other variant carrying its Debug rendering under the identity id resolver. -/
theorem C2_convert_event_total_witness :
    NativeEvent.Suspended.isUnmodeled = true
    ∧ convert_event NativeEvent.Suspended (fun n => n) = TaoEvent.Other "Suspended" :=
  ⟨rfl,
   (C2_convert_event_total NativeEvent.Suspended (fun n => n) (fun n => n)).2 rfl⟩

/-- C10: converting a binding layer MouseButton to the native type and back is
the identity on all four variants, Other carrying its u16 value unchanged,
while converting from native maps any unrecognized native variant to Other with
value 0. -/
theorem C10_mouse_button_round_trip :
    (∀ b : MouseButton, MouseButton.from_tao b.into_tao = b)
  ∧ (∀ dbg : String,
        MouseButton.from_tao (NativeMouseButton.unrecognized dbg) = MouseButton.Other 0) := by
  constructor
  · intro b; cases b <;> rfl
  · intro dbg; rfl

/-! ## Event injection (app.rs lines 58 to 69 and 106 to 112) -/

/-- The EventLoopProxy object (app.rs lines 58 to 61): a clone of the native
proxy, modelled by the proxy handle of the App it was cloned from. -/
structure EventLoopProxy where
  inner : Nat
deriving DecidableEq, Repr

/-- App::create_proxy (app.rs lines 106 to 112): Arc::new of a clone of the
native proxy. It takes the thread-local slot, because every method call runs
under some slot state, and ignores it: this is the one App operation that does
not go through with_target. -/
def App.create_proxy (app : App) (_slot : CurrentTarget) : EventLoopProxy :=
  { inner := app.proxy }

/-- Modelled from the spec: the native event loop channel behind the tao
EventLoopProxy (code of the external tao engine, not part of this repository).
Per the spec, sending enqueues the user event for delivery on a future pump
cycle and fails exactly when the native loop has already terminated. -/
structure NativeLoopChannel where
  closed : Bool
  queue : List TaoUserEvent
deriving DecidableEq, Repr

/-- Modelled from the spec: tao EventLoopProxy::send_event on the channel of
the loop; the error carries the display text the binding later formats. -/
def nativeSendEvent (ch : NativeLoopChannel) (e : TaoUserEvent) :
    Except String NativeLoopChannel :=
  if ch.closed then Except.error "sending on a closed channel"
  else Except.ok { ch with queue := ch.queue ++ [e] }

/-- EventLoopProxy::send_event (app.rs lines 63 to 69): forward to the native
send and convert its error with TaoError::message; p is the proxy the call goes
through and ch the state of the channel behind it. -/
def EventLoopProxy.send_event (_p : EventLoopProxy) (ch : NativeLoopChannel)
    (e : TaoUserEvent) : Except TaoError NativeLoopChannel :=
  match nativeSendEvent ch e with
  | Except.error msg => Except.error (TaoError.message msg)
  | Except.ok ch2 => Except.ok ch2

/-- C7: create_proxy always succeeds and needs no bound context (it is a total
function whose value is independent of the thread-local slot, in contrast to
the with_target gated operations); send_event enqueues the user event and
succeeds exactly when the native loop channel is still open, failing with a
Message error once the loop has terminated; an injected user event is delivered
as the UserEvent-tagged translated event carrying the payload unchanged. -/
theorem C7_event_injector (app : App) (slot slot2 : CurrentTarget)
    (p : EventLoopProxy) (ch : NativeLoopChannel) (e : TaoUserEvent) :
    App.create_proxy app slot = { inner := app.proxy }
  ∧ App.create_proxy app slot = App.create_proxy app slot2
  ∧ ((∃ ch2, p.send_event ch e = Except.ok ch2) ↔ ch.closed = false)
  ∧ (ch.closed = false →
        p.send_event ch e = Except.ok { ch with queue := ch.queue ++ [e] })
  ∧ (ch.closed = true →
        p.send_event ch e
          = Except.error (TaoError.Message "sending on a closed channel"))
  ∧ (∀ f, convert_event (NativeEvent.UserEvent e) f = TaoEvent.UserEvent e) := by
  refine ⟨rfl, rfl, ?_, ?_, ?_, fun f => rfl⟩
  · cases hc : ch.closed <;>
      simp [EventLoopProxy.send_event, nativeSendEvent, TaoError.message, hc]
  · intro hc
    simp [EventLoopProxy.send_event, nativeSendEvent, hc]
  · intro hc
    simp [EventLoopProxy.send_event, nativeSendEvent, TaoError.message, hc]

/-- Witness for C7: sending the Timer user event on an open empty channel
enqueues it. -/
theorem C7_event_injector_witness :
    ({ closed := false, queue := [] } : NativeLoopChannel).closed = false
    ∧ EventLoopProxy.send_event ⟨0⟩ { closed := false, queue := [] } TaoUserEvent.Timer
        = Except.ok { closed := false, queue := [TaoUserEvent.Timer] } :=
  ⟨rfl,
   (C7_event_injector App.init none none ⟨0⟩ { closed := false, queue := [] }
       TaoUserEvent.Timer).2.2.2.1 rfl⟩

/-! ## Raw window handle extraction (graphics.rs) -/

/-- GraphicsBackend (graphics.rs lines 10 to 20). -/
inductive GraphicsBackend where
  | Metal
  | Vulkan
  | DirectX12
  | OpenGL
deriving DecidableEq, Repr

/-- RawWindowHandle (graphics.rs lines 73 to 121): the recommended backend plus
all platform fields as optional integers and the common size and scale
properties. -/
structure RawWindowHandle where
  backend : GraphicsBackend
  ns_view : Option Nat
  ns_window : Option Nat
  ui_view : Option Nat
  ui_window : Option Nat
  hwnd : Option Nat
  hinstance : Option Nat
  xlib_window : Option Nat
  xlib_display : Option Nat
  xlib_visual_id : Option Nat
  xlib_screen : Option Int
  wayland_surface : Option Nat
  wayland_display : Option Nat
  android_native_window : Option Nat
  width : Nat
  height : Nat
  scale_factor : F64
deriving DecidableEq, Repr

/-- RawWindowHandle::is_valid (graphics.rs lines 148 to 165): validity is keyed
on the backend tag. -/
def RawWindowHandle.is_valid (h : RawWindowHandle) : Bool :=
  match h.backend with
  | GraphicsBackend.Metal => h.ns_view.isSome || h.ui_view.isSome
  | GraphicsBackend.DirectX12 => h.hwnd.isSome
  | GraphicsBackend.Vulkan =>
      h.hwnd.isSome || h.xlib_window.isSome || h.wayland_surface.isSome ||
        h.android_native_window.isSome
  | GraphicsBackend.OpenGL =>
      h.ns_view.isSome || h.hwnd.isSome || h.xlib_window.isSome || h.wayland_surface.isSome

/-- The optional handles the per-platform extraction queries report (the cfg
blocks of graphics.rs lines 213 to 262); on any concrete platform only the
fields of that platform are populated, and the assembly is uniform in them.
The code never populates xlib_visual_id or android_native_window on any
platform, so those fields do not appear here. -/
structure PlatformHandles where
  ns_view : Option Nat
  ns_window : Option Nat
  ui_view : Option Nat
  ui_window : Option Nat
  hwnd : Option Nat
  hinstance : Option Nat
  xlib_window : Option Nat
  xlib_display : Option Nat
  xlib_screen : Option Int
  wayland_surface : Option Nat
  wayland_display : Option Nat
deriving DecidableEq, Repr

/-- The native window state raw_window_handle_for_backend reads under the
window lock: inner size, scale factor, and the platform query results. -/
structure NativeWindowState where
  inner_size : PhysicalSizeU32
  scale_factor : F64
  handles : PlatformHandles
deriving DecidableEq, Repr

/-- The handle raw_window_handle_for_backend assembles (graphics.rs lines 193
to 268) before the validity check. -/
def assembleHandle (w : NativeWindowState) (backend : GraphicsBackend) : RawWindowHandle :=
  { backend := backend,
    ns_view := w.handles.ns_view,
    ns_window := w.handles.ns_window,
    ui_view := w.handles.ui_view,
    ui_window := w.handles.ui_window,
    hwnd := w.handles.hwnd,
    hinstance := w.handles.hinstance,
    xlib_window := w.handles.xlib_window,
    xlib_display := w.handles.xlib_display,
    xlib_visual_id := none,
    xlib_screen := w.handles.xlib_screen,
    wayland_surface := w.handles.wayland_surface,
    wayland_display := w.handles.wayland_display,
    android_native_window := none,
    width := w.inner_size.width,
    height := w.inner_size.height,
    scale_factor := w.scale_factor }

/-- raw_window_handle_for_backend (graphics.rs lines 185 to 275): assemble the
handle for the requested backend and fail with Unsupported exactly when the
assembled handle is not valid. -/
def raw_window_handle_for_backend (w : NativeWindowState) (backend : GraphicsBackend) :
    Except TaoError RawWindowHandle :=
  let handle := assembleHandle w backend
  if !handle.is_valid then Except.error TaoError.Unsupported
  else Except.ok handle

/-- C9: raw_window_handle_for_backend returns the Unsupported error exactly
when the assembled handle has no valid platform field for the requested backend
as defined by is_valid keyed on the backend tag, spelled out per backend below;
when some required field is populated it returns the assembled handle. -/
theorem C9_raw_handle_unsupported_iff_invalid (w : NativeWindowState)
    (backend : GraphicsBackend) :
    (raw_window_handle_for_backend w backend = Except.error TaoError.Unsupported
       ↔ (assembleHandle w backend).is_valid = false)
  ∧ ((assembleHandle w backend).is_valid = true →
        raw_window_handle_for_backend w backend = Except.ok (assembleHandle w backend))
  ∧ ((assembleHandle w backend).is_valid = true ↔
        match backend with
        | GraphicsBackend.Metal =>
            w.handles.ns_view.isSome = true ∨ w.handles.ui_view.isSome = true
        | GraphicsBackend.DirectX12 => w.handles.hwnd.isSome = true
        | GraphicsBackend.Vulkan =>
            w.handles.hwnd.isSome = true ∨ w.handles.xlib_window.isSome = true ∨
              w.handles.wayland_surface.isSome = true
        | GraphicsBackend.OpenGL =>
            w.handles.ns_view.isSome = true ∨ w.handles.hwnd.isSome = true ∨
              w.handles.xlib_window.isSome = true ∨
              w.handles.wayland_surface.isSome = true) := by
  refine ⟨?_, ?_, ?_⟩
  · cases hv : (assembleHandle w backend).is_valid <;>
      simp [raw_window_handle_for_backend, hv]
  · intro hv
    simp [raw_window_handle_for_backend, hv]
  · cases backend <;>
      simp [assembleHandle, RawWindowHandle.is_valid, Bool.or_eq_true, or_assoc]

/-- Witness for C9 on a macOS-style window (ns_view and ns_window populated)
queried for the Metal backend: the handle is valid and returned. -/
theorem C9_raw_handle_unsupported_iff_invalid_witness :
    (assembleHandle
        ⟨⟨800, 600⟩, ⟨0⟩,
         ⟨some 1, some 2, none, none, none, none, none, none, none, none, none⟩⟩
        GraphicsBackend.Metal).is_valid = true
    ∧ raw_window_handle_for_backend
        ⟨⟨800, 600⟩, ⟨0⟩,
         ⟨some 1, some 2, none, none, none, none, none, none, none, none, none⟩⟩
        GraphicsBackend.Metal
      = Except.ok (assembleHandle
          ⟨⟨800, 600⟩, ⟨0⟩,
           ⟨some 1, some 2, none, none, none, none, none, none, none, none, none⟩⟩
          GraphicsBackend.Metal) :=
  ⟨rfl,
   (C9_raw_handle_unsupported_iff_invalid
       ⟨⟨800, 600⟩, ⟨0⟩,
        ⟨some 1, some 2, none, none, none, none, none, none, none, none, none⟩⟩
       GraphicsBackend.Metal).2.1 rfl⟩

end TaoKt
